import Mathlib

/-!
Verification development for the `ConnectionToCore` RPC connection controller
of `@ulixee/commons` / `@ulixee/net` (source file `lib/ConnectionToCore.ts`).

The controller is single-threaded cooperative (see spec section 5): every
method runs on one execution context, so we embed each method as a pure
function on an explicit controller state.  The outcomes of the awaited
external operations (the transport's `connect`/`disconnect`, the user hooks
`afterConnectFn`/`beforeDisconnectFn`, and the joined
response-await / `transport.send` of `sendRequest`) are supplied by an
environment record: `none` means the awaited operation completed normally,
`some e` means it rejected with error `e`.  Awaited sub-steps are run to
completion at their suspension point (run-to-completion sequentialization);
no claim in scope depends on interleaving inside a single method body.

Errors are embedded structurally: a JS `Error` is a record of its `name`,
its `message`, the optional `isDisconnecting` marker property
(`none` models an absent property, which `delete` restores), and whether
the value is an `instanceof CanceledPromiseError` (the only instanceof
test the controller performs, at `sendRequest`'s catch).
-/

/-- A JS error value as the controller observes it: `name`, `message`,
the optional `isDisconnecting` marker property (`none` = property absent),
and whether it is an `instanceof CanceledPromiseError`. -/
structure Err where
  name : String
  message : String := ""
  isDisconnecting : Option Bool := none
  isCancellation : Bool := false
deriving DecidableEq, Repr

/-- Modelled from the spec: `DisconnectedError` (its class file
`errors/DisconnectedError.ts` is not under src/).  Per spec sections 5 and 7
it is the disconnected-kind error, it names the transport host, and it is a
cancellation-kind error (the mass-cancel of pending messages uses it and
`sendRequest` swallows it through the `instanceof CanceledPromiseError`
test). -/
def mkDisconnectedError (host : String) : Err :=
  { name := "DisconnectedError", message := host, isCancellation := true }

/-- Source `isBrowserLaunchError` (ConnectionToCore.ts lines 251-253). -/
def isBrowserLaunchError (error : Err) : Bool :=
  error.name = "BrowserLaunchError" || error.name = "DependenciesMissingError"

/-- The `SessionClosedOrMissingError.name` sentinel compared against at
ConnectionToCore.ts line 210. -/
def sessionClosedOrMissingErrorName : String := "SessionClosedOrMissingError"

/-- The `data` field of an inbound response frame: either `null`, an opaque
payload, or an error-shaped value. -/
inductive ResponseData where
  | null : ResponseData
  | payload (v : Nat) : ResponseData
  | error (e : Err) : ResponseData
deriving DecidableEq, Repr

/-- The completion delivered to one pending entry's resolver: fulfilled with
response data, or failed with an error. -/
inductive CompletionResult where
  | ok (data : ResponseData) : CompletionResult
  | failed (error : Err) : CompletionResult
deriving DecidableEq, Repr

/-- Modelled from the spec: `PendingMessages` (the file
`lib/PendingMessages.ts` is not under src/; spec section 4.1 describes it).
`entries` is the table of outstanding requests as pairs
`(id, isInternal)`; `nextId` is the monotonic id counter; `completions` is
the ordered log of completions delivered to entry resolvers.  Per-entry
timeouts are not modelled: no claim in scope concerns timers, and the
timeout argument of `create` is kept only for signature fidelity. -/
structure PendingMessages where
  nextId : Nat := 1
  entries : List (Nat × Bool) := []
  completions : List (Nat × CompletionResult) := []
deriving DecidableEq, Repr

namespace PendingMessages

/-- Modelled from the spec (section 4.1): `create(timeoutMs, isInternal)`
allocates a fresh id and inserts an entry; returns the table and the id. -/
def create (pm : PendingMessages) (_timeoutMs : Option Nat) (isInternal : Bool) :
    PendingMessages × Nat :=
  ({ pm with nextId := pm.nextId + 1,
             entries := pm.entries ++ [(pm.nextId, isInternal)] },
   pm.nextId)

/-- Modelled from the spec (section 4.1): `resolve(id, data)` fulfils the
entry's resolver and removes it; a missing id is a silent no-op. -/
def resolve (pm : PendingMessages) (id : Nat) (data : ResponseData) : PendingMessages :=
  if pm.entries.any (fun p => p.1 = id) then
    { pm with entries := pm.entries.filter (fun p => p.1 ≠ id),
              completions := pm.completions ++ [(id, .ok data)] }
  else pm

/-- Modelled from the spec (section 4.1): `reject(id, error)` fails the
entry's resolver and removes it; a missing id is a silent no-op. -/
def reject (pm : PendingMessages) (id : Nat) (error : Err) : PendingMessages :=
  if pm.entries.any (fun p => p.1 = id) then
    { pm with entries := pm.entries.filter (fun p => p.1 ≠ id),
              completions := pm.completions ++ [(id, .failed error)] }
  else pm

/-- Modelled from the spec (section 4.1): `delete(id)` forcibly removes an
entry without resolving it. -/
def delete (pm : PendingMessages) (id : Nat) : PendingMessages :=
  { pm with entries := pm.entries.filter (fun p => p.1 ≠ id) }

/-- Modelled from the spec (sections 4.1 and 4.3): `cancel(error)` empties
the table, failing every user entry with `error`; internal (handshake)
entries are exempt from the user-traffic mass-cancel and are completed with
`null` instead of being failed. -/
def cancel (pm : PendingMessages) (error : Err) : PendingMessages :=
  { pm with entries := [],
            completions := pm.completions ++
              pm.entries.map (fun p => (p.1, if p.2 then .ok .null else .failed error)) }

end PendingMessages

/-- State of a `Resolvable` promise: pending, resolved, or rejected. -/
inductive PromiseState where
  | pending : PromiseState
  | resolved : PromiseState
  | rejected (error : Err) : PromiseState
deriving DecidableEq, Repr

/-- Source `Resolvable.isResolved`. -/
def PromiseState.isResolved : PromiseState → Bool
  | .resolved => true
  | _ => false

/-- The `connectPromise?.isResolved` optional-chain read at line 93. -/
def isResolvedOpt : Option PromiseState → Bool
  | some p => p.isResolved
  | none => false

/-- The mutable state of one `ConnectionToCore` instance, together with
counters recording the externally observable effects (event emissions,
transport driver invocations, pending-table mass cancellations, hook
invocations).  `disconnectPromise = some false` is a created-but-pending
promise, `some true` a resolved one.  `terminatedListenerArmed` models the
`events.once(transport, 'disconnected', onConnectionTerminated)`
subscription made in the constructor (line 67): armed until it fires
once. -/
structure CoreState where
  connectPromise : Option PromiseState := none
  disconnectPromise : Option Bool := none
  connectStartTime : Option Nat := none
  didAutoConnect : Bool := false
  disconnectStartTime : Option Nat := none
  disconnectError : Option Err := none
  connectMessageId : Option Nat := none
  disconnectMessageId : Option Nat := none
  pendingMessages : PendingMessages := {}
  isConnectionTerminated : Bool := false
  terminatedListenerArmed : Bool := true
  transportIsConnected : Bool := false
  isSendingConnect : Bool := false
  isSendingDisconnect : Bool := false
  emittedConnected : Nat := 0
  emittedDisconnected : Nat := 0
  transportConnectCount : Nat := 0
  transportDisconnectCount : Nat := 0
  cancelCount : Nat := 0
  afterConnectCount : Nat := 0
  beforeDisconnectCount : Nat := 0
deriving DecidableEq, Repr

/-- Outcomes of the awaited external operations and the presence of the
optional hooks: `none` = the awaited call completed normally, `some e` = it
rejected with `e`.  `hasActiveSessions` is the result of the
subclass-overridable `hasActiveSessions()` predicate (default false). -/
structure Env where
  hasActiveSessions : Bool := false
  hasAfterConnectFn : Bool := false
  afterConnectThrows : Option Err := none
  hasBeforeDisconnectFn : Bool := false
  beforeDisconnectThrows : Option Err := none
  transportConnectThrows : Option Err := none
  transportDisconnectThrows : Option Err := none
deriving DecidableEq, Repr

namespace ConnectionToCore

/-- Source `onResponse` error remapping (lines 206-216), factored as the
computation of the local `responseError` variable: compute
disconnect-adjacency from the incoming error (disconnect in progress, or
the `SessionClosedOrMissingError` name sentinel, or the
`isDisconnecting === true` marker), then `delete` the marker, then remap to
a `DisconnectedError` on the transport host unless the (scrubbed) error is
a browser-launch-kind error. -/
def remapResponseError (host : String) (disconnectInProgress : Bool) (data : Err) : Err :=
  let isDisconnected := disconnectInProgress
    || data.name = sessionClosedOrMissingErrorName
    || data.isDisconnecting = some true
  let responseError := { data with isDisconnecting := none }
  if isDisconnected && !isBrowserLaunchError responseError then mkDisconnectedError host
  else responseError

/-- Source `onResponse` (lines 204-221): error-shaped `data` rejects the
pending entry with the (possibly remapped) error, any other `data` resolves
it. -/
def onResponse (host : String) (s : CoreState) (responseId : Nat) (data : ResponseData) :
    CoreState :=
  match data with
  | .error e =>
      let responseError := remapResponseError host s.disconnectPromise.isSome e
      { s with pendingMessages := s.pendingMessages.reject responseId responseError }
  | d => { s with pendingMessages := s.pendingMessages.resolve responseId d }

/-- Source `connect` lines 98-102: resolve `connectPromise`, emit
`connected`, mark the transport connected (the transport-level `connected`
emission has no controller-side listener and is not tracked). -/
def connectResolveAndEmit (s : CoreState) : CoreState :=
  { s with connectPromise := some .resolved,
           emittedConnected := s.emittedConnected + 1,
           transportIsConnected := true }

/-- Source `connect(isAutoConnect = false, timeoutMs = 30e3)`
(lines 76-109).  The body runs only when no `connectPromise` exists yet;
failures at any awaited step reject `connectPromise` with the error (the
catch at lines 103-105).  Note that when `afterConnectFn` throws, control
jumps from line 95 directly to the catch: the `isSendingConnect = false`
assignment at line 96 is skipped and the flag stays true. -/
def connect (env : Env) (host : String) (now : Nat) (isAutoConnect : Bool)
    (_timeoutMs : Nat) (s : CoreState) : CoreState :=
  if s.connectPromise.isSome then s
  else
    let s1 := { s with didAutoConnect := isAutoConnect,
                       connectStartTime := some now,
                       connectPromise := some .pending,
                       transportConnectCount := s.transportConnectCount + 1 }
    match env.transportConnectThrows with
    | some e => { s1 with connectPromise := some (.rejected e) }
    | none =>
      if env.hasActiveSessions && s1.disconnectPromise.isSome && !s1.didAutoConnect then
        { s1 with connectPromise := some (.rejected (mkDisconnectedError host)) }
      else if !isResolvedOpt s1.connectPromise && env.hasAfterConnectFn then
        let s2 := { s1 with isSendingConnect := true,
                            afterConnectCount := s1.afterConnectCount + 1 }
        match env.afterConnectThrows with
        | some e => { s2 with connectPromise := some (.rejected e) }
        | none => connectResolveAndEmit { s2 with isSendingConnect := false }
      else connectResolveAndEmit s1

/-- Source `onConnectionTerminated` (lines 227-248): latched by
`isConnectionTerminated`; emits `disconnected`; synthesizes a response for
an outstanding internal connect request (`null` if the connect was
auto-initiated, else a `DisconnectedError` on the host) and a `null`
response for an outstanding internal disconnect request; cancels all
remaining pending messages; runs `beforeDisconnectFn` gated by
`isSendingDisconnect` (with no catch: a throwing hook leaves the flag
true). -/
def onConnectionTerminated (env : Env) (host : String) (s : CoreState) : CoreState :=
  if s.isConnectionTerminated then s
  else
    let s1 := { s with isConnectionTerminated := true,
                       emittedDisconnected := s.emittedDisconnected + 1 }
    let s2 := match s1.connectMessageId with
      | some id =>
          onResponse host s1 id
            (if !s1.didAutoConnect then .error (mkDisconnectedError host) else .null)
      | none => s1
    let s3 := match s2.disconnectMessageId with
      | some id => onResponse host s2 id .null
      | none => s2
    let hookRuns : Nat := if env.hasBeforeDisconnectFn then 1 else 0
    let cancelled := s3.pendingMessages.cancel (mkDisconnectedError host)
    let s4 := { s3 with pendingMessages := cancelled, cancelCount := s3.cancelCount + 1 }
    let s5 := { s4 with isSendingDisconnect := true,
                        beforeDisconnectCount := s4.beforeDisconnectCount + hookRuns }
    if env.hasBeforeDisconnectFn && env.beforeDisconnectThrows.isSome then s5
    else { s5 with isSendingDisconnect := false }

/-- The transport-level `disconnected` emission (`transport.emit` at
line 132) as seen by the controller: the constructor (line 67) subscribed
`onConnectionTerminated` with a once-only listener, so the emission invokes
it when the listener is still armed, and disarms the listener. -/
def emitTransportDisconnected (env : Env) (host : String) (s : CoreState) : CoreState :=
  if s.terminatedListenerArmed then
    onConnectionTerminated env host { s with terminatedListenerArmed := false }
  else s

/-- Source `disconnect(fatalError?)` (lines 111-144).  Records
`disconnectStartTime`/`disconnectError` unconditionally, returns the
existing `disconnectPromise` on re-entry, otherwise runs the teardown:
cancel pending messages, run `beforeDisconnectFn` gated by
`isSendingDisconnect` (a throw leaves the flag true and propagates), drive
the transport disconnect, emit transport-level then controller-level
`disconnected`, clear `connectPromise`, and resolve `disconnectPromise` in
the `finally` unwind on every path.  Returns the state and the propagated
error, if any. -/
def disconnect (env : Env) (host : String) (now : Nat) (fatalError : Option Err)
    (s : CoreState) : CoreState × Option Err :=
  let s0 := { s with disconnectStartTime := some now, disconnectError := fatalError }
  if s0.disconnectPromise.isSome then (s0, none)
  else
    let s1 := { s0 with disconnectPromise := some false }
    let hookRuns : Nat := if env.hasBeforeDisconnectFn then 1 else 0
    let cancelled := s1.pendingMessages.cancel (mkDisconnectedError host)
    let s2 := { s1 with pendingMessages := cancelled, cancelCount := s1.cancelCount + 1 }
    let s3 := { s2 with isSendingDisconnect := true,
                        beforeDisconnectCount := s2.beforeDisconnectCount + hookRuns }
    if env.hasBeforeDisconnectFn && env.beforeDisconnectThrows.isSome then
      ({ s3 with disconnectPromise := some true }, env.beforeDisconnectThrows)
    else
      let s4 := { s3 with isSendingDisconnect := false,
                          transportDisconnectCount := s3.transportDisconnectCount + 1 }
      match env.transportDisconnectThrows with
      | some e => ({ s4 with disconnectPromise := some true }, some e)
      | none =>
        let s5 := { s4 with transportIsConnected := false }
        let s6 := emitTransportDisconnected env host s5
        let s7 := { s6 with emittedDisconnected := s6.emittedDisconnected + 1 }
        let s8 := { s7 with connectPromise := none }
        ({ s8 with disconnectPromise := some true }, none)

/-- The outcome of awaiting an in-flight `connect` promise at
`sendRequest` line 158: a rejected promise makes the `await` throw. -/
def connectAwaitError : Option PromiseState → Option Err
  | some (.rejected e) => some e
  | _ => none

/-- Result of a `sendRequest` call: `ok (some r)` is a normal resolution
with the response data, `ok none` is the empty (`undefined`) resolution of
the cancellation-swallow path at line 178, `threw e` is a rejection. -/
inductive SendResult where
  | ok (data : Option ResponseData) : SendResult
  | threw (error : Err) : SendResult
deriving DecidableEq, Repr

/-- Environment of one `sendRequest` call: the general environment for the
auto-connect, plus the joined outcome of
`Promise.all([pending promise, transport.send(frame)])` at lines 166-173:
`.ok r` when the pending promise resolved with `r` (and the send did not
fail first), `.error e` when the join rejected with `e`.  `during` is the
interference that ran at this suspension point (other controller events,
such as a concurrently initiated disconnect or the inbound response that
settles the pending promise); it transforms the state between the entry
creation and the observation of the join's outcome. -/
structure SendEnv where
  env : Env := {}
  sendOutcome : Except Err ResponseData := .ok .null
  during : CoreState → CoreState := fun st => st

/-- Source `sendRequest` (lines 146-185).  Samples the re-entry flags, runs
the auto-connect when neither is set — note the source invokes
`this.connect()` at line 158, leaving `isAutoConnect` at its declared
default of `false` — and propagates a rejected connect.  Then creates the
pending entry (internal iff a re-entry flag was sampled), records the
internal id slot, awaits the joined send, and on error deletes the pending
entry and either swallows a cancellation-kind error while a disconnect is
in progress (resolving empty) or rethrows; the `finally` clears the
internal id slot that this call set.  The request payload itself is opaque
to the control flow and is not modelled. -/
def sendRequest (senv : SendEnv) (host : String) (now : Nat) (timeoutMs : Option Nat)
    (s : CoreState) : CoreState × SendResult :=
  let isConnect := s.isSendingConnect
  let isDisconnect := s.isSendingDisconnect
  let sa := if !isConnect && !isDisconnect then
              connect senv.env host now false 30000 s
            else s
  match (if !isConnect && !isDisconnect then connectAwaitError sa.connectPromise
         else none) with
  | some e => (sa, .threw e)
  | none =>
    let created := sa.pendingMessages.create timeoutMs (isConnect || isDisconnect)
    let id := created.2
    let sb := { sa with pendingMessages := created.1,
                        connectMessageId :=
                          if isConnect then some id else sa.connectMessageId,
                        disconnectMessageId :=
                          if isDisconnect then some id else sa.disconnectMessageId }
    let sm := senv.during sb
    let step : CoreState × SendResult :=
      match senv.sendOutcome with
      | .ok r => (sm, .ok (some r))
      | .error e =>
        let sd := { sm with pendingMessages := sm.pendingMessages.delete id }
        if sd.disconnectPromise.isSome && e.isCancellation then (sd, .ok none)
        else (sd, .threw e)
    let sc := step.1
    ({ sc with connectMessageId :=
                 if isConnect then none else sc.connectMessageId,
               disconnectMessageId :=
                 if isDisconnect then none else sc.disconnectMessageId },
     step.2)

/-- `n` sequential `disconnect` calls with the same environment and
arguments. -/
def disconnectN (env : Env) (host : String) (now : Nat) (fatalError : Option Err) :
    Nat → CoreState → CoreState
  | 0, s => s
  | n + 1, s => disconnectN env host now fatalError n (disconnect env host now fatalError s).1

end ConnectionToCore

/-! ### Helper lemmas about the pending-message table -/

namespace PendingMessages

theorem mem_completions_resolve {pm : PendingMessages} {x : Nat × CompletionResult}
    (id : Nat) (data : ResponseData) (h : x ∈ pm.completions) :
    x ∈ (pm.resolve id data).completions := by
  unfold resolve
  split
  · exact List.mem_append_left _ h
  · exact h

theorem mem_completions_reject {pm : PendingMessages} {x : Nat × CompletionResult}
    (id : Nat) (e : Err) (h : x ∈ pm.completions) :
    x ∈ (pm.reject id e).completions := by
  unfold reject
  split
  · exact List.mem_append_left _ h
  · exact h

theorem mem_completions_cancel {pm : PendingMessages} {x : Nat × CompletionResult}
    (e : Err) (h : x ∈ pm.completions) :
    x ∈ (pm.cancel e).completions :=
  List.mem_append_left _ h

theorem reject_delivers {pm : PendingMessages} {id : Nat} {fl : Bool} {e : Err}
    (h : (id, fl) ∈ pm.entries) :
    (id, CompletionResult.failed e) ∈ (pm.reject id e).completions := by
  unfold reject
  rw [if_pos (List.any_eq_true.mpr ⟨(id, fl), h, by simp⟩)]
  exact List.mem_append_right _ (List.mem_singleton.mpr rfl)

theorem resolve_delivers {pm : PendingMessages} {id : Nat} {fl : Bool} {d : ResponseData}
    (h : (id, fl) ∈ pm.entries) :
    (id, CompletionResult.ok d) ∈ (pm.resolve id d).completions := by
  unfold resolve
  rw [if_pos (List.any_eq_true.mpr ⟨(id, fl), h, by simp⟩)]
  exact List.mem_append_right _ (List.mem_singleton.mpr rfl)

theorem mem_entries_resolve {pm : PendingMessages} {i : Nat} {fl : Bool}
    (id : Nat) (d : ResponseData) (h : (i, fl) ∈ pm.entries) (hne : i ≠ id) :
    (i, fl) ∈ (pm.resolve id d).entries := by
  unfold resolve
  split
  · exact List.mem_filter.mpr ⟨h, decide_eq_true hne⟩
  · exact h

theorem mem_entries_reject {pm : PendingMessages} {i : Nat} {fl : Bool}
    (id : Nat) (e : Err) (h : (i, fl) ∈ pm.entries) (hne : i ≠ id) :
    (i, fl) ∈ (pm.reject id e).entries := by
  unfold reject
  split
  · exact List.mem_filter.mpr ⟨h, decide_eq_true hne⟩
  · exact h

theorem cancel_entries (pm : PendingMessages) (e : Err) : (pm.cancel e).entries = [] := rfl

theorem cancel_delivers {pm : PendingMessages} {i : Nat} {fl : Bool} (e : Err)
    (h : (i, fl) ∈ pm.entries) :
    (i, if fl then CompletionResult.ok .null else CompletionResult.failed e) ∈
      (pm.cancel e).completions :=
  List.mem_append_right _ (List.mem_map.mpr ⟨(i, fl), h, rfl⟩)

end PendingMessages

/-! ### Frame and projection lemmas for the controller operations -/

namespace ConnectionToCore

theorem onResponse_frame (host : String) (s : CoreState) (i : Nat) (d : ResponseData) :
    onResponse host s i d =
      { s with pendingMessages := (onResponse host s i d).pendingMessages } := by
  cases d <;> rfl

theorem connect_disconnectPromise (env : Env) (host : String) (now : Nat) (auto : Bool)
    (tm : Nat) (s : CoreState) :
    (connect env host now auto tm s).disconnectPromise = s.disconnectPromise := by
  simp only [connect, connectResolveAndEmit]
  repeat' first | rfl | split

theorem connect_isConnectionTerminated (env : Env) (host : String) (now : Nat) (auto : Bool)
    (tm : Nat) (s : CoreState) :
    (connect env host now auto tm s).isConnectionTerminated = s.isConnectionTerminated := by
  simp only [connect, connectResolveAndEmit]
  repeat' first | rfl | split

theorem connect_isSendingDisconnect (env : Env) (host : String) (now : Nat) (auto : Bool)
    (tm : Nat) (s : CoreState) :
    (connect env host now auto tm s).isSendingDisconnect = s.isSendingDisconnect := by
  simp only [connect, connectResolveAndEmit]
  repeat' first | rfl | split

theorem onConnectionTerminated_latched (env : Env) (host : String) (s : CoreState)
    (h : s.isConnectionTerminated = true) :
    onConnectionTerminated env host s = s := by
  simp [onConnectionTerminated, h]

theorem onConnectionTerminated_disconnectPromise (env : Env) (host : String) (s : CoreState) :
    (onConnectionTerminated env host s).disconnectPromise = s.disconnectPromise := by
  simp only [onConnectionTerminated, onResponse]
  repeat' first | rfl | split

theorem emitTransportDisconnected_disconnectPromise (env : Env) (host : String)
    (s : CoreState) :
    (emitTransportDisconnected env host s).disconnectPromise = s.disconnectPromise := by
  unfold emitTransportDisconnected
  split
  · rw [onConnectionTerminated_disconnectPromise]
  · rfl

theorem emitTransportDisconnected_latch_mono (env : Env) (host : String) (s : CoreState)
    (h : s.isConnectionTerminated = true) :
    (emitTransportDisconnected env host s).isConnectionTerminated = true := by
  unfold emitTransportDisconnected
  split
  · rw [onConnectionTerminated_latched]
    · exact h
    · exact h
  · exact h

theorem disconnect_reentrant (env : Env) (host : String) (now : Nat) (fe : Option Err)
    (s : CoreState) (h : s.disconnectPromise.isSome = true) :
    disconnect env host now fe s =
      ({ s with disconnectStartTime := some now, disconnectError := fe }, none) := by
  simp [disconnect, h]

end ConnectionToCore

namespace ConnectionToCore

/-- Claim C1 (code evidence): on a fresh controller, a `sendRequest` entered
with neither re-entry flag set and no `connectPromise` does trigger the
connect (the transport connect is driven once and `connectPromise` becomes
resolved), yet the connect records `didAutoConnect = false`: line 158
invokes `this.connect()` with `isAutoConnect` left at its declared default
of `false`, contradicting the claimed `didAutoConnect = true`. -/
theorem sendRequest_autoConnect_records_didAutoConnect_false :
    (sendRequest {} "host" 0 none {}).1.transportConnectCount = 1
    ∧ (sendRequest {} "host" 0 none {}).1.connectPromise = some PromiseState.resolved
    ∧ (sendRequest {} "host" 0 none {}).1.didAutoConnect = false :=
  ⟨rfl, rfl, rfl⟩

/-- Claim C5 (counterexample): a `connect` on a fresh controller whose
`afterConnectFn` hook throws finishes the hook invocation (the hook ran
exactly once and `connect` has returned, rejecting `connectPromise`), yet
`isSendingConnect` is still true afterwards: the reset at line 96 is
skipped when line 95 throws, and the catch at lines 103-105 does not
restore the flag. -/
theorem connect_isSendingConnect_stuck_after_hook_throw :
    (connect { hasAfterConnectFn := true, afterConnectThrows := some { name := "HookError" } }
        "host" 0 false 30000 {}).afterConnectCount = 1
    ∧ (connect { hasAfterConnectFn := true, afterConnectThrows := some { name := "HookError" } }
        "host" 0 false 30000 {}).connectPromise
        = some (PromiseState.rejected { name := "HookError" })
    ∧ (connect { hasAfterConnectFn := true, afterConnectThrows := some { name := "HookError" } }
        "host" 0 false 30000 {}).isSendingConnect = true :=
  ⟨rfl, rfl, rfl⟩

/-- Claim C7 (counterexample): a single `disconnect` call on a fresh
controller with a `beforeDisconnectFn` hook drives the transport disconnect
once, but performs the pending-message cancellation twice, invokes
`beforeDisconnectFn` twice, and emits the controller-level `disconnected`
twice: the transport-level `disconnected` emission at line 132 fires the
once-registered `onConnectionTerminated` (line 67), which cancels, runs the
hook, and emits again. -/
theorem disconnect_single_call_double_teardown_effects :
    (disconnect { hasBeforeDisconnectFn := true } "host" 0 none {}).1.transportDisconnectCount = 1
    ∧ (disconnect { hasBeforeDisconnectFn := true } "host" 0 none {}).1.cancelCount = 2
    ∧ (disconnect { hasBeforeDisconnectFn := true } "host" 0 none {}).1.beforeDisconnectCount = 2
    ∧ (disconnect { hasBeforeDisconnectFn := true } "host" 0 none {}).1.emittedDisconnected = 2 :=
  ⟨rfl, rfl, rfl, rfl⟩

/-- Claim C2 (counterexample): connect, fully disconnect (which resets
`connectPromise` to null), then connect again; the new connect cycle has
begun (`connectPromise` is a fresh resolved promise) yet `disconnectPromise`
is still present — no code path ever clears `disconnectPromise`. -/
theorem disconnectPromise_still_present_after_reconnect :
    ((disconnect {} "host" 1 none (connect {} "host" 0 false 30000 {})).1).connectPromise = none
    ∧ (connect {} "host" 2 false 30000
        ((disconnect {} "host" 1 none (connect {} "host" 0 false 30000 {})).1)).connectPromise
        = some PromiseState.resolved
    ∧ (connect {} "host" 2 false 30000
        ((disconnect {} "host" 1 none (connect {} "host" 0 false 30000 {})).1)).disconnectPromise
        = some true :=
  ⟨rfl, rfl, rfl⟩

/-- Claim C9: a re-entrant `disconnect(fatalError)` call (one entered while
`disconnectPromise` already exists) overwrites `disconnectStartTime` and
`disconnectError` before returning the existing promise, throws nothing,
and mutates no other controller state. -/
theorem disconnect_reentrant_frame (env : Env) (host : String) (now : Nat)
    (fatalError : Option Err) (s : CoreState) (h : s.disconnectPromise.isSome = true) :
    disconnect env host now fatalError s =
      ({ s with disconnectStartTime := some now, disconnectError := fatalError }, none)
    ∧ ((disconnect env host now fatalError s).1).disconnectPromise = s.disconnectPromise := by
  refine ⟨disconnect_reentrant env host now fatalError s h, ?_⟩
  rw [disconnect_reentrant env host now fatalError s h]

/-- Claim C9 witness: the re-entrant frame property evaluated on a concrete
state whose `disconnectPromise` is pending. -/
theorem disconnect_reentrant_frame_witness :
    disconnect {} "host" 7 (some { name := "Fatal" })
        { disconnectPromise := some false } =
      ({ disconnectPromise := some false, disconnectStartTime := some 7,
         disconnectError := some { name := "Fatal" } }, none) :=
  (disconnect_reentrant_frame {} "host" 7 (some { name := "Fatal" })
      { disconnectPromise := some false } rfl).1

/-- Claim C8: every `disconnect` execution that actually runs the teardown
(entered with no `disconnectPromise` yet) leaves `disconnectPromise`
resolved, whatever the outcomes of `beforeDisconnectFn` and the transport
disconnect: the resolution happens in the `finally` unwind (line 141). -/
theorem disconnect_resolves_disconnectPromise (env : Env) (host : String) (now : Nat)
    (fatalError : Option Err) (s : CoreState) (h : s.disconnectPromise = none) :
    ((disconnect env host now fatalError s).1).disconnectPromise = some true := by
  simp only [disconnect]
  split
  · simp_all
  · repeat' first | rfl | split

/-- Claim C8 witness: teardown on a fresh controller whose hook throws still
resolves `disconnectPromise`. -/
theorem disconnect_resolves_disconnectPromise_witness :
    ((disconnect { hasBeforeDisconnectFn := true,
                   beforeDisconnectThrows := some { name := "HookError" } }
        "host" 0 none {}).1).disconnectPromise = some true :=
  disconnect_resolves_disconnectPromise _ "host" 0 none {} rfl

end ConnectionToCore

namespace PendingMessages

theorem delete_not_mem (pm : PendingMessages) (id : Nat) (fl : Bool) :
    (id, fl) ∉ (pm.delete id).entries := by
  intro h
  have := (List.mem_filter.mp h).2
  simp [create] at this

end PendingMessages

namespace ConnectionToCore

/-- Claim C3: for every inbound response frame whose `data` is an error and
has a pending entry, the entry is rejected with the delivered error, which
equals the disconnected-kind error on the transport host exactly when the
error is disconnect-adjacent (disconnect in progress, or named after the
`SessionClosedOrMissingError` sentinel, or carrying `isDisconnecting = true`)
and is named neither `BrowserLaunchError` nor `DependenciesMissingError`,
and equals the incoming error (with the marker scrubbed) otherwise; the
`isDisconnecting` marker is absent on the delivered error in every case. -/
theorem onResponse_error_remap (host : String) (s : CoreState) (respId : Nat) (e : Err)
    (internal : Bool) (h : (respId, internal) ∈ s.pendingMessages.entries) :
    (respId, CompletionResult.failed (remapResponseError host s.disconnectPromise.isSome e))
        ∈ (onResponse host s respId (.error e)).pendingMessages.completions
    ∧ remapResponseError host s.disconnectPromise.isSome e =
        (if (s.disconnectPromise.isSome || e.name = sessionClosedOrMissingErrorName
              || e.isDisconnecting = some true)
            && !(e.name = "BrowserLaunchError" || e.name = "DependenciesMissingError")
         then mkDisconnectedError host
         else { e with isDisconnecting := none })
    ∧ (remapResponseError host s.disconnectPromise.isSome e).isDisconnecting = none := by
  refine ⟨?_, ?_, ?_⟩
  · simp only [onResponse]
    exact PendingMessages.reject_delivers h
  · simp [remapResponseError, isBrowserLaunchError]
  · simp only [remapResponseError]
    split <;> rfl

/-- Claim C3 witness: during a disconnect, an inbound error named `X`
carrying the `isDisconnecting` marker, addressed to pending entry 5, is
delivered as the disconnected-kind error with the marker absent. -/
theorem onResponse_error_remap_witness :
    ((5, CompletionResult.failed
        (remapResponseError "h"
          ({ disconnectPromise := some false,
             pendingMessages := { nextId := 6, entries := [(5, false)] } : CoreState
           }).disconnectPromise.isSome
          { name := "X", isDisconnecting := some true })) ∈
      (onResponse "h"
        { disconnectPromise := some false,
          pendingMessages := { nextId := 6, entries := [(5, false)] } }
        5 (.error { name := "X", isDisconnecting := some true })).pendingMessages.completions)
    ∧ remapResponseError "h" true { name := "X", isDisconnecting := some true }
        = mkDisconnectedError "h"
    ∧ (remapResponseError "h" true { name := "X", isDisconnecting := some true }).isDisconnecting
        = none := by
  have hthm := onResponse_error_remap "h"
    { disconnectPromise := some false,
      pendingMessages := { nextId := 6, entries := [(5, false)] } }
    5 { name := "X", isDisconnecting := some true } false (by decide)
  exact ⟨hthm.1, by decide, hthm.2.2⟩

/-- Claim C4: a `sendRequest` (entered in steady state: neither re-entry
flag set, `connectPromise` resolved) whose joined await fails with error
`e` deletes the pending entry it created — the created id is gone from the
table and the removal records no completion — and resolves with an empty
value when a disconnect is in progress at that moment and `e` is a
cancellation-kind error, rethrowing `e` in every other case.  `f` is the
interference that ran while suspended on the join. -/
theorem sendRequest_error_deletes_and_swallows (env : Env) (f : CoreState → CoreState)
    (host : String) (now : Nat) (tm : Option Nat) (s : CoreState) (e : Err)
    (hc : s.isSendingConnect = false) (hd : s.isSendingDisconnect = false)
    (hp : s.connectPromise = some PromiseState.resolved) :
    (sendRequest { env := env, sendOutcome := .error e, during := f } host now tm s).2 =
      (if (f { s with
                pendingMessages := (s.pendingMessages.create tm false).1 }).disconnectPromise.isSome
          && e.isCancellation
       then SendResult.ok none else SendResult.threw e)
    ∧ s.pendingMessages.nextId ∉
        ((sendRequest { env := env, sendOutcome := .error e, during := f }
            host now tm s).1).pendingMessages.entries.map Prod.fst
    ∧ ((sendRequest { env := env, sendOutcome := .error e, during := f }
          host now tm s).1).pendingMessages.completions =
        (f { s with
              pendingMessages := (s.pendingMessages.create tm false).1 }).pendingMessages.completions := by
  refine ⟨?_, ?_, ?_⟩ <;>
    simp [sendRequest, hc, hd, hp, connect, connectAwaitError] <;>
    split <;>
    first
      | rfl
      | exact ⟨PendingMessages.delete_not_mem _ _ _, PendingMessages.delete_not_mem _ _ _⟩

/-- Claim C4 witness: with a disconnect in progress, an in-flight
`sendRequest` that fails with the cancellation-kind disconnected error
resolves empty, and the entry it created (id 1) is no longer in the
table. -/
theorem sendRequest_error_deletes_and_swallows_witness :
    (sendRequest { env := {}, sendOutcome := .error (mkDisconnectedError "h"),
                   during := fun st => st } "h" 0 none
        { connectPromise := some PromiseState.resolved,
          disconnectPromise := some false }).2 = SendResult.ok none
    ∧ 1 ∉ ((sendRequest
              { env := {}, sendOutcome := .error (mkDisconnectedError "h"),
                during := fun st => st } "h" 0 none
              { connectPromise := some PromiseState.resolved,
                disconnectPromise := some false }).1).pendingMessages.entries.map Prod.fst := by
  have h := sendRequest_error_deletes_and_swallows {} (fun st => st) "h" 0 none
    { connectPromise := some PromiseState.resolved, disconnectPromise := some false }
    (mkDisconnectedError "h") rfl rfl rfl
  exact ⟨h.1.trans rfl, h.2.1⟩

end ConnectionToCore

namespace ConnectionToCore

theorem onConnectionTerminated_isSendingDisconnect (env : Env) (host : String) (s : CoreState)
    (hB : env.beforeDisconnectThrows = none) (h : s.isSendingDisconnect = false) :
    (onConnectionTerminated env host s).isSendingDisconnect = false := by
  simp only [onConnectionTerminated, onResponse, hB]
  repeat' first | exact h | rfl | split | simp_all

theorem emitTransportDisconnected_isSendingDisconnect (env : Env) (host : String)
    (s : CoreState) (hB : env.beforeDisconnectThrows = none)
    (h : s.isSendingDisconnect = false) :
    (emitTransportDisconnected env host s).isSendingDisconnect = false := by
  unfold emitTransportDisconnected
  split
  · exact onConnectionTerminated_isSendingDisconnect env host _ hB h
  · exact h

theorem disconnect_isSendingDisconnect (env : Env) (host : String) (now : Nat)
    (fe : Option Err) (s : CoreState) (hB : env.beforeDisconnectThrows = none)
    (h : s.isSendingDisconnect = false) :
    ((disconnect env host now fe s).1).isSendingDisconnect = false := by
  simp only [disconnect, hB]
  split
  · exact h
  · simp only [Option.isSome_none, Bool.and_false, Bool.false_eq_true, if_false]
    split
    · rfl
    · exact emitTransportDisconnected_isSendingDisconnect env host _ hB rfl

theorem connect_isSendingConnect_success (env : Env) (host : String) (now : Nat)
    (auto : Bool) (tm : Nat) (s : CoreState) (hA : env.afterConnectThrows = none)
    (h : s.isSendingConnect = false) :
    (connect env host now auto tm s).isSendingConnect = false := by
  simp only [connect, connectResolveAndEmit, hA]
  repeat' first | exact h | rfl | split

/-- Claim C5 (amended): `isSendingConnect` and `isSendingDisconnect` are
gated true around the corresponding hook invocation and are false again
once the hook invocation has completed *normally*; when a hook throws, the
reset assignment is skipped and the flag remains true (see the
counterexample), so the guarantee holds only for non-throwing hook
executions of `connect`, `disconnect`, and `onConnectionTerminated`. -/
theorem sending_flags_false_after_successful_hooks (env : Env) (host : String) (now : Nat)
    (auto : Bool) (tm : Nat) (fe : Option Err) (s : CoreState)
    (hA : env.afterConnectThrows = none) (hB : env.beforeDisconnectThrows = none)
    (h1 : s.isSendingConnect = false) (h2 : s.isSendingDisconnect = false) :
    (connect env host now auto tm s).isSendingConnect = false
    ∧ ((disconnect env host now fe s).1).isSendingDisconnect = false
    ∧ (onConnectionTerminated env host s).isSendingDisconnect = false :=
  ⟨connect_isSendingConnect_success env host now auto tm s hA h1,
   disconnect_isSendingDisconnect env host now fe s hB h2,
   onConnectionTerminated_isSendingDisconnect env host s hB h2⟩

/-- Claim C5 (amended) witness: on a fresh controller with both hooks
present and succeeding, all three operations finish with their flag
cleared. -/
theorem sending_flags_false_after_successful_hooks_witness :
    (connect { hasAfterConnectFn := true, hasBeforeDisconnectFn := true }
        "h" 0 false 30000 {}).isSendingConnect = false
    ∧ ((disconnect { hasAfterConnectFn := true, hasBeforeDisconnectFn := true }
        "h" 0 none {}).1).isSendingDisconnect = false
    ∧ (onConnectionTerminated { hasAfterConnectFn := true, hasBeforeDisconnectFn := true }
        "h" {}).isSendingDisconnect = false :=
  sending_flags_false_after_successful_hooks
    { hasAfterConnectFn := true, hasBeforeDisconnectFn := true }
    "h" 0 false 30000 none {} rfl rfl rfl rfl

end ConnectionToCore

namespace ConnectionToCore

theorem sendRequest_disconnectPromise (e' : Env) (so : Except Err ResponseData)
    (host : String) (now : Nat) (tm : Option Nat) (s : CoreState) :
    ((sendRequest { env := e', sendOutcome := so } host now tm s).1).disconnectPromise
      = s.disconnectPromise := by
  simp only [sendRequest]
  repeat' first | rw [connect_disconnectPromise] | rfl | split

theorem sendRequest_isConnectionTerminated (e' : Env) (so : Except Err ResponseData)
    (host : String) (now : Nat) (tm : Option Nat) (s : CoreState) :
    ((sendRequest { env := e', sendOutcome := so } host now tm s).1).isConnectionTerminated
      = s.isConnectionTerminated := by
  simp only [sendRequest]
  repeat' first | rw [connect_isConnectionTerminated] | rfl | split

theorem disconnect_latch_mono (env : Env) (host : String) (now : Nat) (fe : Option Err)
    (s : CoreState) (h : s.isConnectionTerminated = true) :
    ((disconnect env host now fe s).1).isConnectionTerminated = true := by
  simp only [disconnect]
  split
  · exact h
  · repeat' first
      | exact h
      | exact emitTransportDisconnected_latch_mono env host _ h
      | rfl
      | split

theorem remap_mkDisconnectedError (host : String) (b : Bool) :
    remapResponseError host b (mkDisconnectedError host) = mkDisconnectedError host := by
  cases b <;> simp [remapResponseError, mkDisconnectedError, isBrowserLaunchError,
    sessionClosedOrMissingErrorName]

/-- Claim C2 (amended): `disconnectPromise` is created by the first
`disconnect` call and is never cleared for the remainder of the
controller's lifetime: no operation — including a completed disconnect
followed by a fresh connect cycle — resets it, so its presence (the
disconnecting/disconnected signal) persists across connection generations.
The original claim's consequence that the signal no longer holds once a
new connect cycle begins fails on the code (see the counterexample). -/
theorem disconnectPromise_never_cleared (env : Env) (envS : Env) (host : String) (now : Nat)
    (auto : Bool) (tm : Nat) (tms : Option Nat) (fe : Option Err)
    (so : Except Err ResponseData) (i : Nat) (d : ResponseData)
    (s : CoreState) (b : Bool) (h : s.disconnectPromise = some b) :
    (connect env host now auto tm s).disconnectPromise = some b
    ∧ ((disconnect env host now fe s).1).disconnectPromise = some b
    ∧ ((sendRequest { env := envS, sendOutcome := so } host now tms s).1).disconnectPromise
        = some b
    ∧ (onResponse host s i d).disconnectPromise = some b
    ∧ (onConnectionTerminated env host s).disconnectPromise = some b := by
  refine ⟨?_, ?_, ?_, ?_, ?_⟩
  · rw [connect_disconnectPromise]; exact h
  · rw [disconnect_reentrant env host now fe s (by simp [h])]; exact h
  · rw [sendRequest_disconnectPromise]; exact h
  · rw [onResponse_frame]; exact h
  · rw [onConnectionTerminated_disconnectPromise]; exact h

/-- Claim C2 (amended) witness: with `disconnectPromise` resolved, each of
the five operations leaves it in place. -/
theorem disconnectPromise_never_cleared_witness :
    (connect {} "h" 0 false 30000 { disconnectPromise := some true }).disconnectPromise
        = some true
    ∧ ((disconnect {} "h" 0 none { disconnectPromise := some true }).1).disconnectPromise
        = some true
    ∧ ((sendRequest { env := {}, sendOutcome := .ok .null } "h" 0 none
          { disconnectPromise := some true }).1).disconnectPromise = some true
    ∧ (onResponse "h" { disconnectPromise := some true } 1 .null).disconnectPromise = some true
    ∧ (onConnectionTerminated {} "h" { disconnectPromise := some true }).disconnectPromise
        = some true :=
  disconnectPromise_never_cleared {} {} "h" 0 false 30000 none none (.ok .null) 1 .null
    { disconnectPromise := some true } true rfl

/-- Claim C10: the `isConnectionTerminated` latch is permanent for the
controller's lifetime: a latched `onConnectionTerminated` is a complete
no-op, and no operation — `connect` (a fresh cycle included), `disconnect`,
`sendRequest`, or `onResponse` — ever resets the latch, so a second
transport termination after a completed disconnect and reconnect produces
no further controller effect. -/
theorem terminated_latch_permanent (env : Env) (envS : Env) (host : String) (now : Nat)
    (auto : Bool) (tm : Nat) (tms : Option Nat) (fe : Option Err)
    (so : Except Err ResponseData) (i : Nat) (d : ResponseData)
    (s : CoreState) (h : s.isConnectionTerminated = true) :
    onConnectionTerminated env host s = s
    ∧ (connect env host now auto tm s).isConnectionTerminated = true
    ∧ ((disconnect env host now fe s).1).isConnectionTerminated = true
    ∧ ((sendRequest { env := envS, sendOutcome := so } host now tms s).1).isConnectionTerminated
        = true
    ∧ (onResponse host s i d).isConnectionTerminated = true := by
  refine ⟨onConnectionTerminated_latched env host s h, ?_,
    disconnect_latch_mono env host now fe s h, ?_, ?_⟩
  · rw [connect_isConnectionTerminated]; exact h
  · rw [sendRequest_isConnectionTerminated]; exact h
  · rw [onResponse_frame]; exact h

/-- Claim C10 witness: on a terminated controller (latch set, once-listener
already fired), a repeated termination signal is a no-op and every
operation leaves the latch set. -/
theorem terminated_latch_permanent_witness :
    onConnectionTerminated {} "h"
        { isConnectionTerminated := true, terminatedListenerArmed := false }
      = { isConnectionTerminated := true, terminatedListenerArmed := false }
    ∧ (connect {} "h" 0 false 30000
        { isConnectionTerminated := true, terminatedListenerArmed := false
        }).isConnectionTerminated = true
    ∧ ((disconnect {} "h" 0 none
        { isConnectionTerminated := true, terminatedListenerArmed := false
        }).1).isConnectionTerminated = true
    ∧ ((sendRequest { env := {}, sendOutcome := .ok .null } "h" 0 none
        { isConnectionTerminated := true, terminatedListenerArmed := false
        }).1).isConnectionTerminated = true
    ∧ (onResponse "h" { isConnectionTerminated := true, terminatedListenerArmed := false }
        1 .null).isConnectionTerminated = true :=
  terminated_latch_permanent {} {} "h" 0 false 30000 none none (.ok .null) 1 .null
    { isConnectionTerminated := true, terminatedListenerArmed := false } rfl

end ConnectionToCore

namespace ConnectionToCore

/-- Claim C6: on the first transport-level termination (latch not yet set),
with an outstanding internal connect request `cid` and internal disconnect
request `did`, the handler synthesizes for `cid` a response completing it
with `null` when the connect was auto-initiated and with the
disconnected-kind error naming the transport host otherwise, synthesizes a
`null` response completing `did`, and cancels every remaining (user)
pending request with the disconnected-kind error, leaving the table
empty. -/
theorem onConnectionTerminated_synthesizes_and_cancels (env : Env) (host : String)
    (s : CoreState) (cid did : Nat) (ci di : Bool)
    (hterm : s.isConnectionTerminated = false)
    (hc : s.connectMessageId = some cid)
    (hd : s.disconnectMessageId = some did)
    (hcm : (cid, ci) ∈ s.pendingMessages.entries)
    (hdm : (did, di) ∈ s.pendingMessages.entries)
    (hne : cid ≠ did) :
    ((cid, if s.didAutoConnect then CompletionResult.ok .null
           else CompletionResult.failed (mkDisconnectedError host))
        ∈ (onConnectionTerminated env host s).pendingMessages.completions)
    ∧ ((did, CompletionResult.ok .null)
        ∈ (onConnectionTerminated env host s).pendingMessages.completions)
    ∧ (∀ i fl, (i, fl) ∈ s.pendingMessages.entries → i ≠ cid → i ≠ did → fl = false →
        (i, CompletionResult.failed (mkDisconnectedError host))
          ∈ (onConnectionTerminated env host s).pendingMessages.completions)
    ∧ (onConnectionTerminated env host s).pendingMessages.entries = [] := by
  cases hauto : s.didAutoConnect with
  | false =>
      simp only [onConnectionTerminated, hterm, hc, hd, hauto, Bool.false_eq_true, if_false,
        onResponse, Bool.not_false, if_true]
      rw [remap_mkDisconnectedError]
      refine ⟨?_, ?_, ?_, ?_⟩
      · split <;>
          exact PendingMessages.mem_completions_cancel _
            (PendingMessages.mem_completions_resolve _ _
              (PendingMessages.reject_delivers hcm))
      · split <;>
          exact PendingMessages.mem_completions_cancel _
            (PendingMessages.resolve_delivers
              (PendingMessages.mem_entries_reject _ _ hdm (Ne.symm hne)))
      · intro i fl hmem hic hid hfl
        subst hfl
        split <;>
          simpa using PendingMessages.cancel_delivers (mkDisconnectedError host)
            (PendingMessages.mem_entries_resolve _ _
              (PendingMessages.mem_entries_reject _ _ hmem hic) hid)
      · split <;> rfl
  | true =>
      simp only [onConnectionTerminated, hterm, hc, hd, hauto, Bool.false_eq_true, if_false,
        onResponse, Bool.not_true, if_true]
      refine ⟨?_, ?_, ?_, ?_⟩
      · split <;>
          exact PendingMessages.mem_completions_cancel _
            (PendingMessages.mem_completions_resolve _ _
              (PendingMessages.resolve_delivers hcm))
      · split <;>
          exact PendingMessages.mem_completions_cancel _
            (PendingMessages.resolve_delivers
              (PendingMessages.mem_entries_resolve _ _ hdm (Ne.symm hne)))
      · intro i fl hmem hic hid hfl
        subst hfl
        split <;>
          simpa using PendingMessages.cancel_delivers (mkDisconnectedError host)
            (PendingMessages.mem_entries_resolve _ _
              (PendingMessages.mem_entries_resolve _ _ hmem hic) hid)
      · split <;> rfl

end ConnectionToCore

namespace ConnectionToCore

/-- Claim C6 witness: a terminating controller with internal connect
request 1 (not auto-initiated), internal disconnect request 2, and user
request 3: 1 is failed with the disconnected error, 2 completes with null,
3 is cancelled with the disconnected error, and the table is emptied. -/
theorem onConnectionTerminated_synthesizes_and_cancels_witness :
    ((1, CompletionResult.failed (mkDisconnectedError "h")) ∈
      (onConnectionTerminated {} "h"
        { connectMessageId := some 1, disconnectMessageId := some 2,
          pendingMessages := { nextId := 4, entries := [(1, true), (2, true), (3, false)] }
        }).pendingMessages.completions)
    ∧ ((2, CompletionResult.ok .null) ∈
      (onConnectionTerminated {} "h"
        { connectMessageId := some 1, disconnectMessageId := some 2,
          pendingMessages := { nextId := 4, entries := [(1, true), (2, true), (3, false)] }
        }).pendingMessages.completions)
    ∧ ((3, CompletionResult.failed (mkDisconnectedError "h")) ∈
      (onConnectionTerminated {} "h"
        { connectMessageId := some 1, disconnectMessageId := some 2,
          pendingMessages := { nextId := 4, entries := [(1, true), (2, true), (3, false)] }
        }).pendingMessages.completions)
    ∧ (onConnectionTerminated {} "h"
        { connectMessageId := some 1, disconnectMessageId := some 2,
          pendingMessages := { nextId := 4, entries := [(1, true), (2, true), (3, false)] }
        }).pendingMessages.entries = [] := by
  have h := onConnectionTerminated_synthesizes_and_cancels {} "h"
    { connectMessageId := some 1, disconnectMessageId := some 2,
      pendingMessages := { nextId := 4, entries := [(1, true), (2, true), (3, false)] } }
    1 2 true true rfl rfl rfl (by decide) (by decide) (by decide)
  exact ⟨h.1, h.2.1, h.2.2.1 3 false (by decide) (by decide) (by decide) rfl, h.2.2.2⟩

end ConnectionToCore

namespace ConnectionToCore

theorem disconnect_first_call_counts (env : Env) (host : String) (now : Nat) (fe : Option Err)
    (s : CoreState)
    (h1 : s.disconnectPromise = none) (h2 : env.hasBeforeDisconnectFn = true)
    (h3 : env.beforeDisconnectThrows = none) (h4 : env.transportDisconnectThrows = none)
    (h5 : s.terminatedListenerArmed = true) (h6 : s.isConnectionTerminated = false)
    (h7 : s.connectMessageId = none) (h8 : s.disconnectMessageId = none) :
    ((disconnect env host now fe s).1).transportDisconnectCount = s.transportDisconnectCount + 1
    ∧ ((disconnect env host now fe s).1).cancelCount = s.cancelCount + 2
    ∧ ((disconnect env host now fe s).1).beforeDisconnectCount = s.beforeDisconnectCount + 2
    ∧ ((disconnect env host now fe s).1).emittedDisconnected = s.emittedDisconnected + 2
    ∧ ((disconnect env host now fe s).1).disconnectPromise = some true := by
  simp [disconnect, emitTransportDisconnected, onConnectionTerminated,
    h1, h2, h3, h4, h5, h6, h7, h8]

theorem disconnectN_counts_reentrant (env : Env) (host : String) (now : Nat)
    (fe : Option Err) (n : Nat) :
    ∀ (s : CoreState), s.disconnectPromise.isSome = true →
      (disconnectN env host now fe n s).transportDisconnectCount = s.transportDisconnectCount
      ∧ (disconnectN env host now fe n s).cancelCount = s.cancelCount
      ∧ (disconnectN env host now fe n s).beforeDisconnectCount = s.beforeDisconnectCount
      ∧ (disconnectN env host now fe n s).emittedDisconnected = s.emittedDisconnected
      ∧ (disconnectN env host now fe n s).disconnectPromise = s.disconnectPromise := by
  induction n with
  | zero => exact fun s h => ⟨rfl, rfl, rfl, rfl, rfl⟩
  | succ n ih =>
      intro s h
      simp only [disconnectN]
      rw [disconnect_reentrant env host now fe s h]
      exact ih _ (by simpa using h)

/-- Claim C7 (amended): `disconnect` is idempotent in the sense that every
call made while `disconnectPromise` already exists returns that same
promise, mutating only `disconnectStartTime`/`disconnectError`, so N
sequential `disconnect` calls drive the transport disconnect exactly once;
however, the single teardown's transport-level `disconnected` emission
re-enters `onConnectionTerminated` through the constructor's once-listener,
so the pending-message cancellation, the `beforeDisconnectFn` invocation,
and the controller-level `disconnected` emission each occur exactly twice
in total, not once (see the counterexample against the original claim). -/
theorem disconnectN_single_teardown (env : Env) (host : String) (now : Nat)
    (fe : Option Err) (n : Nat) (s : CoreState)
    (h1 : s.disconnectPromise = none) (h2 : env.hasBeforeDisconnectFn = true)
    (h3 : env.beforeDisconnectThrows = none) (h4 : env.transportDisconnectThrows = none)
    (h5 : s.terminatedListenerArmed = true) (h6 : s.isConnectionTerminated = false)
    (h7 : s.connectMessageId = none) (h8 : s.disconnectMessageId = none) :
    (disconnectN env host now fe (n + 1) s).transportDisconnectCount
        = s.transportDisconnectCount + 1
    ∧ (disconnectN env host now fe (n + 1) s).cancelCount = s.cancelCount + 2
    ∧ (disconnectN env host now fe (n + 1) s).beforeDisconnectCount
        = s.beforeDisconnectCount + 2
    ∧ (disconnectN env host now fe (n + 1) s).emittedDisconnected = s.emittedDisconnected + 2
    ∧ (disconnectN env host now fe (n + 1) s).disconnectPromise = some true := by
  have hfirst := disconnect_first_call_counts env host now fe s h1 h2 h3 h4 h5 h6 h7 h8
  have hrest := disconnectN_counts_reentrant env host now fe n
    ((disconnect env host now fe s).1) (by rw [hfirst.2.2.2.2]; rfl)
  simp only [disconnectN]
  refine ⟨?_, ?_, ?_, ?_, ?_⟩
  · rw [hrest.1, hfirst.1]
  · rw [hrest.2.1, hfirst.2.1]
  · rw [hrest.2.2.1, hfirst.2.2.1]
  · rw [hrest.2.2.2.1, hfirst.2.2.2.1]
  · rw [hrest.2.2.2.2, hfirst.2.2.2.2]

end ConnectionToCore

namespace ConnectionToCore

/-- Claim C7 (amended) witness: two sequential disconnect calls on a fresh
controller with a hook: one transport disconnect, two cancellations, two
hook invocations, two disconnected emissions, promise resolved. -/
theorem disconnectN_single_teardown_witness :
    (disconnectN { hasBeforeDisconnectFn := true } "h" 0 none 2 {}).transportDisconnectCount = 1
    ∧ (disconnectN { hasBeforeDisconnectFn := true } "h" 0 none 2 {}).cancelCount = 2
    ∧ (disconnectN { hasBeforeDisconnectFn := true } "h" 0 none 2 {}).beforeDisconnectCount = 2
    ∧ (disconnectN { hasBeforeDisconnectFn := true } "h" 0 none 2 {}).emittedDisconnected = 2
    ∧ (disconnectN { hasBeforeDisconnectFn := true } "h" 0 none 2 {}).disconnectPromise
        = some true :=
  disconnectN_single_teardown { hasBeforeDisconnectFn := true } "h" 0 none 1 {}
    rfl rfl rfl rfl rfl rfl rfl rfl

end ConnectionToCore
